import Mathlib

/-!
Verification of the hetzner-flatcar deployment orchestrator (main.go and
config.go) against its natural-language specification.

The Go program is shallowly embedded: every external call (Hetzner cloud
API, goph SSH client, filesystem, template engine, transpiler library) is
modelled by an environment field holding the outcome that call would
return, and the orchestrator is a pure function from such an environment
to the list of observable events it performs (requests issued, waits,
sleeps, uploads, commands run, prints) together with its exit status.

Two Go facts the embedding relies on:
  - log.Fatalf prints and then calls os.Exit(1); os.Exit terminates the
    process immediately and deferred functions are NOT run.  Accordingly a
    fatal step short-circuits the run and the deferred cleanup events are
    appended only on the normal-return path.
  - the hcloud-go lookup helpers (SSHKey.GetByName, Network.GetByName,
    Server.GetByName, ServerType.GetByName, Image.Get, Location.GetByName)
    return a nil resource and a nil error when the named resource does not
    exist; an error is returned only when the request itself fails.  main.go
    itself witnesses this convention: it checks both the error and the nil
    result for the ssh key and the network.  Lookups are therefore embedded
    as a pair (request error, optional resource).

Log message texts are kept from the source except that the single-quote
characters around interpolated values are omitted.
-/

namespace HetznerFlatcar

/-! ## Configuration (config.go: hcloudConfig, flatcarConfig, config,
verifyConfig, ParseConfig).  The field set follows the current config.go
(src/unnamed/part_004); InstallDevice and InstallArgs are the two extra
fields main.go reads (cfg.Flatcar.InstallDevice, cfg.Flatcar.InstallArgs).
verifyConfig never inspects them. -/

structure hcloudConfig where
  Token : String
  SSHKey : String
  SSHKeyPrivatePath : String
  PrivateNetwork : String
  ServerType : String
  Location : String
  Image : String
deriving DecidableEq

structure flatcarConfig where
  InstallScript : String
  Version : String
  ConfigTemplate : String
  TemplateStatic : List (String × String)
  TemplateCommand : String
  InstallDevice : String
  InstallArgs : String
deriving DecidableEq

structure config where
  HCloud : hcloudConfig
  Flatcar : flatcarConfig
deriving DecidableEq

/-- The second half of verifyConfig, from the flatcar version check on,
applied to the record after the image default. -/
def verifyFlatcarPart (conf1 : config) : Option String × config :=
  if conf1.Flatcar.Version = "" then (some "flatcar version missing", conf1)
  else if conf1.Flatcar.ConfigTemplate = "" then
    (none, { conf1 with Flatcar := { conf1.Flatcar with ConfigTemplate := "ignition.yml.gtpl" } })
  else (none, conf1)

/-- config.go verifyConfig: Go mutates conf in place and returns an error;
here the (possibly defaulted) record is returned alongside the error. -/
def verifyConfig (conf : config) : Option String × config :=
  if conf.HCloud.Token = "" then (some "hcloud token missing", conf)
  else if conf.HCloud.SSHKey = "" then (some "ssh key missing", conf)
  else if conf.HCloud.PrivateNetwork = "" then (some "private network missing", conf)
  else if conf.HCloud.ServerType = "" then (some "server type missing", conf)
  else if conf.HCloud.Location = "" then (some "location missing", conf)
  else if conf.HCloud.Image = "" then
    verifyFlatcarPart { conf with HCloud := { conf.HCloud with Image := "debian-11" } }
  else verifyFlatcarPart conf

/-- config.go ParseConfig: toml.DecodeFile is external; its outcome is the
argument.  On decode success verifyConfig runs and its error propagates. -/
def ParseConfig (decoded : Except String config) : Except String config :=
  match decoded with
  | .error e => .error e
  | .ok conf =>
    match verifyConfig conf with
    | (some e, _) => .error e
    | (none, conf2) => .ok conf2

/-! ## Action Waiter (main.go waitForAction).  The progress channel is the
list of values received before it closes; the parallel error channel
yields one value, the paired error (nil is possible in Go, hence Option). -/

/-- The for-range loop over the progress channel with its success
accumulator: success starts false and is set whenever a value of 100 is
seen. -/
def watchLoop (success : Bool) : List Nat → Bool
  | [] => success
  | p :: rest => watchLoop (if p = 100 then true else success) rest

/-- main.go waitForAction: drain the progress channel; if 100 was never
seen, read and return the paired error from the error channel. -/
def waitForAction (progress : List Nat) (pairedError : Option String) : Option String :=
  if watchLoop false progress then none else pairedError

theorem watchLoop_eq (l : List Nat) : ∀ s, watchLoop s l = (s || l.contains 100) := by
  induction l with
  | nil => intro s; simp [watchLoop]
  | cons p rest ih =>
    intro s
    by_cases hp : p = 100
    · subst hp; simp [watchLoop, ih]
    · have hp2 : ¬ (100 = p) := fun h => hp h.symm
      simp only [watchLoop, if_neg hp, ih]
      simp [hp2]

/-! ## The transpiler wrapper (main.go transpileConfig).  The external
clconfig library returns reports with a fatal flag and diagnostic text;
json.Marshal, os.CreateTemp and File.Write are external too. -/

structure Report where
  fatalFlag : Bool
  text : String
deriving DecidableEq

structure TranspileEnv where
  parseReport : Report
  convertReport : Report
  jsonMarshal : Except String String
  createTempResult : Except String String
  writeErr : Option String

/-- Observable events of a run.  Constructors tagged req are the mutating
cloud requests; waitAction records an invocation of the Action Waiter. -/
inductive Event where
  | printUsage
  | readConfig
  | lookupSSHKey
  | lookupNetwork
  | lookupServer
  | reqAttach (serverId networkId : Nat)
  | lookupServerType
  | lookupImage
  | lookupLocation
  | reqCreate (name : String) (serverType image location : Option Nat)
      (sshKeys networks : List Nat)
  | waitAction
  | getServerById (id : Nat)
  | createTempFile (path : String)
  | removeTempFile (path : String)
  | reqEnableRescue (sshKeys : List Nat)
  | reqReboot (serverId : Nat)
  | reqPoweron (serverId : Nat)
  | sleepSeconds (n : Nat)
  | sshAttempt (n : Nat)
  | uploadFile (src dst : String)
  | runCmd (c : String)
  | closeSession
  | printSummary (name : String) (id : Nat) (ipv4 ipv6 : String)
deriving DecidableEq

def Event.isMutating : Event → Bool
  | .reqAttach _ _ => true
  | .reqCreate _ _ _ _ _ _ => true
  | .reqEnableRescue _ => true
  | .reqReboot _ => true
  | .reqPoweron _ => true
  | _ => false

/-- transpileConfig with its events: the temporary file creation is
observable (it is the moment the ConfigurationArtifact starts existing).
The diagnostic reports are checked only through IsFatal; their text is
discarded by the source. -/
def transpileConfigRun (t : TranspileEnv) : List Event × Except String String :=
  if t.parseReport.fatalFlag then ([], .error "config parsing failed")
  else if t.convertReport.fatalFlag then ([], .error "config conversion failed")
  else
    match t.jsonMarshal with
    | .error e => ([], .error e)
    | .ok _ =>
      match t.createTempResult with
      | .error e => ([], .error e)
      | .ok name =>
        match t.writeErr with
        | some e => ([Event.createTempFile name], .error e)
        | none => ([Event.createTempFile name], .ok name)

/-- main.go transpileConfig seen as its return value alone. -/
def transpileConfig (t : TranspileEnv) : Except String String :=
  (transpileConfigRun t).2

/-- seg occurs at the head of hay. -/
def isSegAt (seg hay : List Char) : Bool :=
  match seg, hay with
  | [], _ => true
  | _ :: _, [] => false
  | c :: cs, h :: hs => c = h && isSegAt cs hs

/-- seg occurs contiguously somewhere in hay. -/
def hasSeg (seg : List Char) : List Char → Bool
  | [] => isSegAt seg []
  | h :: hs => isSegAt seg (h :: hs) || hasSeg seg hs

/-- An error message surfaces a diagnostic report when the report text
occurs inside the message. -/
def errorSurfacesReport (e : String) (r : Report) : Bool :=
  hasSeg r.text.data e.data

/-! ## Cloud records (the fields of hcloud.Server, hcloud.SSHKey,
hcloud.Network that main.go reads). -/

inductive ServerStatus where
  | running
  | off
  | starting
deriving DecidableEq

structure Server where
  id : Nat
  name : String
  status : ServerStatus
  rescueEnabled : Bool
  privateNet : List Nat
  ipv4 : String
  ipv6 : String
deriving DecidableEq

structure SSHKey where
  id : Nat
  name : String
deriving DecidableEq

structure Network where
  id : Nat
  name : String
deriving DecidableEq

/-! ## Run plumbing.  A step yields events plus either a value or the
message of the log.Fatalf that terminated the process.  Since log.Fatalf
calls os.Exit, a fatal step discards the continuation, including every
deferred function. -/

inductive StepResult (α : Type) where
  | ok (a : α)
  | fatal (msg : String)
deriving DecidableEq

def andThen {α β : Type} :
    List Event × StepResult α → (α → List Event × StepResult β) →
    List Event × StepResult β
  | (t, .ok a), f => let (t2, r) := f a; (t ++ t2, r)
  | (t, .fatal m), _ => (t, .fatal m)

inductive ExitStatus where
  | ok
  | usageExit
  | fatalErr (msg : String)
deriving DecidableEq

/-- Process exit code: os.Exit(1) on the usage path, log.Fatalf exits 1,
normal return exits 0. -/
def ExitStatus.code : ExitStatus → Nat
  | .ok => 0
  | .usageExit => 1
  | .fatalErr _ => 1

def toExit : List Event × StepResult Unit → List Event × ExitStatus
  | (t, .ok _) => (t, ExitStatus.ok)
  | (t, .fatal m) => (t, ExitStatus.fatalErr m)

/-- A progress-channel/error-channel pair as consumed by one waitForAction
call site. -/
def WaitFeed := List Nat × Option String

def runWait (w : WaitFeed) : Option String :=
  waitForAction w.1 w.2

/-- Outcome of one goph.NewUnknown connection attempt: nil error, an error
implementing net.Error, or any other error. -/
inductive AttemptOutcome where
  | success
  | netError (msg : String)
  | otherError (msg : String)
deriving DecidableEq

def AttemptOutcome.isNet : AttemptOutcome → Bool
  | .netError _ => true
  | _ => false

/-- The environment: the outcome every external call of one run would
return, plus os.Args.  Lookups are (request error, optional resource)
pairs: a missing resource is (none, none), per the hcloud-go convention
main.go itself relies on for the ssh key and network checks. -/
structure Env where
  args : List String
  tomlDecode : Except String config
  sshKeyLookup : Option String × Option SSHKey
  networkLookup : Option String × Option Network
  serverLookup : Option String × Option Server
  attachErr : Option String
  attachActionErr : Option String
  serverTypeLookup : Option String × Option Nat
  imageLookup : Option String × Option Nat
  locationLookup : Option String × Option Nat
  createErr : Option String
  createActionErr : Option String
  createWait : WaitFeed
  nextActionWaits : List WaitFeed
  createdServerId : Nat
  getByIdErr : Option String
  getByIdServer : Server
  tmplLoadErr : Option String
  tmplExecErr : Option String
  yamlMarshalErr : Option String
  tmplCmdErr : Option String
  transpile : TranspileEnv
  enableRescueErr : Option String
  enableRescueActionErr : Option String
  enableRescueWait : WaitFeed
  powerErr : Option String
  powerActionErr : Option String
  powerWait : WaitFeed
  keyAuthErr : Option String
  agentAuthErr : Option String
  connectOutcome : Nat → AttemptOutcome
  uploadScriptErr : Option String
  curlNewErr : Option String
  curlRunErr : Option String
  uploadIgnitionErr : Option String
  cmdNewErr : String → Option String
  pipeErr : String → Option String
  cmdRunErr : String → Option String
  rebootNewErr : Option String
  rebootRunErr : Option String
  removeErr : Option String

/-! ## Phases of main, in source order. -/

/-- main.go lines 90 to 97: ParseConfig and its fatal check.  The
readConfig event marks that config.toml was read. -/
def parseConfigPhase (env : Env) : List Event × StepResult config :=
  match ParseConfig env.tomlDecode with
  | .error e => ([Event.readConfig], .fatal ("error parsing config: " ++ e))
  | .ok cfg => ([Event.readConfig], .ok cfg)

/-- main.go: SSHKey.GetByName plus the error and nil checks. -/
def lookupSSHKeyPhase (env : Env) (cfg : config) : List Event × StepResult SSHKey :=
  match env.sshKeyLookup with
  | (some e, _) => ([Event.lookupSSHKey], .fatal ("error requesting ssh key: " ++ e))
  | (none, none) =>
    ([Event.lookupSSHKey], .fatal ("ssh key " ++ cfg.HCloud.SSHKey ++ " does not exist"))
  | (none, some k) => ([Event.lookupSSHKey], .ok k)

/-- main.go: Network.GetByName plus the error and nil checks. -/
def lookupNetworkPhase (env : Env) (cfg : config) : List Event × StepResult Network :=
  match env.networkLookup with
  | (some e, _) => ([Event.lookupNetwork], .fatal ("error requesting network: " ++ e))
  | (none, none) =>
    ([Event.lookupNetwork], .fatal ("network " ++ cfg.HCloud.PrivateNetwork ++ " does not exist"))
  | (none, some n) => ([Event.lookupNetwork], .ok n)

/-- The for-range loop over server.PrivateNet with break (main.go lines
138 to 144). -/
def privateNetworkAttachedLoop (ids : List Nat) (netId : Nat) : Bool :=
  match ids with
  | [] => false
  | x :: rest => if x = netId then true else privateNetworkAttachedLoop rest netId

/-- main.go lines 132 to 157, the existing-server branch: reconcile the
private network attachment.  The AttachToNetwork request error and the
immediate action error are checked; waitForAction is not called here. -/
def existingServerPhase (env : Env) (net : Network) (server : Server) :
    List Event × StepResult Unit :=
  if privateNetworkAttachedLoop server.privateNet net.id then ([], .ok ())
  else
    match env.attachErr with
    | some e =>
      ([Event.reqAttach server.id net.id], .fatal ("error request attach to network: " ++ e))
    | none =>
      match env.attachActionErr with
      | some e =>
        ([Event.reqAttach server.id net.id], .fatal ("error attaching server to network: " ++ e))
      | none => ([Event.reqAttach server.id net.id], .ok ())

/-- The for loop over serverCreateResult.NextActions (main.go lines 196
to 201). -/
def waitNextActions : List WaitFeed → List Event × StepResult Unit
  | [] => ([], .ok ())
  | w :: rest =>
    match runWait w with
    | some e => ([Event.waitAction], .fatal ("error waiting for action: " ++ e))
    | none =>
      let (t, r) := waitNextActions rest
      (Event.waitAction :: t, r)

/-- main.go lines 158 to 207, the create branch: resolve server type,
image and location (only the request error of each lookup is checked; a
nil resource flows into the create options), create with auto-start
disabled, wait for the create action and every next action, then re-fetch
the server by id. -/
def createServerPhase (env : Env) (sshKey : SSHKey) (net : Network)
    (serverName : String) : List Event × StepResult Server :=
  match env.serverTypeLookup with
  | (some e, _) => ([Event.lookupServerType], .fatal ("error finding server type: " ++ e))
  | (none, serverTypeOpt) =>
    match env.imageLookup with
    | (some e, _) =>
      ([Event.lookupServerType, Event.lookupImage], .fatal ("error finding image: " ++ e))
    | (none, imageOpt) =>
      match env.locationLookup with
      | (some e, _) =>
        ([Event.lookupServerType, Event.lookupImage, Event.lookupLocation],
          .fatal ("error finding location: " ++ e))
      | (none, locationOpt) =>
        let pre := [Event.lookupServerType, Event.lookupImage, Event.lookupLocation,
          Event.reqCreate serverName serverTypeOpt imageOpt locationOpt [sshKey.id] [net.id]]
        match env.createErr with
        | some e => (pre, .fatal ("error creating server: " ++ e))
        | none =>
          match env.createActionErr with
          | some e => (pre, .fatal ("error creating server: " ++ e))
          | none =>
            match runWait env.createWait with
            | some e => (pre ++ [Event.waitAction], .fatal ("error waiting for action: " ++ e))
            | none =>
              andThen (pre ++ [Event.waitAction], .ok ()) fun _ =>
              andThen (waitNextActions env.nextActionWaits) fun _ =>
              match env.getByIdErr with
              | some e =>
                ([Event.getServerById env.createdServerId],
                  .fatal ("error requesting updated server object: " ++ e))
              | none =>
                ([Event.getServerById env.createdServerId], .ok env.getByIdServer)

/-- main.go lines 123 to 208: find the server by name; the create branch
runs when the lookup returns no server, the reconcile branch otherwise.
The reconcile branch keeps the originally fetched record. -/
def resolveServerPhase (env : Env) (sshKey : SSHKey) (net : Network)
    (serverName : String) : List Event × StepResult Server :=
  match env.serverLookup with
  | (some e, _) => ([Event.lookupServer], .fatal ("error finding server: " ++ e))
  | (none, some server) =>
    andThen ([Event.lookupServer], .ok ()) fun _ =>
    andThen (existingServerPhase env net server) fun _ =>
    ([], .ok server)
  | (none, none) =>
    andThen ([Event.lookupServer], .ok ()) fun _ =>
    createServerPhase env sshKey net serverName

/-- main.go lines 210 to 265: render the ignition template, either with
the native go template or with the custom template command.  The rendered
bytes themselves are irrelevant to the claims; only the fatal branches
are kept. -/
def renderPhase (env : Env) (cfg : config) : List Event × StepResult Unit :=
  if cfg.Flatcar.TemplateCommand = "" then
    match env.tmplLoadErr with
    | some e => ([], .fatal ("error loading template: " ++ e))
    | none =>
      match env.tmplExecErr with
      | some e => ([], .fatal ("error rendering template: " ++ e))
      | none => ([], .ok ())
  else
    match env.yamlMarshalErr with
    | some e => ([], .fatal ("error marshaling hcloud data to yaml: " ++ e))
    | none =>
      match env.tmplCmdErr with
      | some e => ([], .fatal ("error running template command: " ++ e))
      | none => ([], .ok ())

/-- main.go lines 267 to 270: transpileConfig and its fatal check.  The
deferred os.Remove registered on lines 272 to 276 runs only if main
returns normally; it is appended in finalPhase. -/
def transpilePhase (env : Env) : List Event × StepResult String :=
  let (t, r) := transpileConfigRun env.transpile
  match r with
  | .error e => (t, .fatal ("error transpiling config: " ++ e))
  | .ok path => (t, .ok path)

/-- main.go lines 279 to 296: enable rescue boot, scoped to the one ssh
key, unless already enabled; wait for the action. -/
def enableRescuePhase (env : Env) (sshKey : SSHKey) (server : Server) :
    List Event × StepResult Unit :=
  if server.rescueEnabled then ([], .ok ())
  else
    match env.enableRescueErr with
    | some e =>
      ([Event.reqEnableRescue [sshKey.id]],
        .fatal ("error sending enablerescue request: " ++ e))
    | none =>
      match env.enableRescueActionErr with
      | some e =>
        ([Event.reqEnableRescue [sshKey.id]], .fatal ("error enabling rescue: " ++ e))
      | none =>
        match runWait env.enableRescueWait with
        | some e =>
          ([Event.reqEnableRescue [sshKey.id], Event.waitAction],
            .fatal ("error waiting for action: " ++ e))
        | none => ([Event.reqEnableRescue [sshKey.id], Event.waitAction], .ok ())

/-- main.go lines 298 to 317: reboot if running, otherwise power on; wait
for whichever action was issued. -/
def powerPhase (env : Env) (server : Server) : List Event × StepResult Unit :=
  let ev := if server.status = ServerStatus.running then Event.reqReboot server.id
    else Event.reqPoweron server.id
  match env.powerErr with
  | some e => ([ev], .fatal ("error sending reboot or poweron request: " ++ e))
  | none =>
    match env.powerActionErr with
    | some e => ([ev], .fatal ("error rebooting or powering on server: " ++ e))
    | none =>
      match runWait env.powerWait with
      | some e => ([ev, Event.waitAction], .fatal ("error waiting for action: " ++ e))
      | none => ([ev, Event.waitAction], .ok ())

/-- main.go lines 279 to 321: the rescue sequence, ending with the fixed
30 second settle sleep. -/
def rescuePhase (env : Env) (sshKey : SSHKey) (server : Server) :
    List Event × StepResult Unit :=
  andThen (enableRescuePhase env sshKey server) fun _ =>
  andThen (powerPhase env server) fun _ =>
  ([Event.sleepSeconds 30], .ok ())

/-- main.go lines 323 to 331: build the ssh authentication, from the
private key file when configured, from the ssh agent otherwise. -/
def sshAuthPhase (env : Env) (cfg : config) : List Event × StepResult Unit :=
  let authErr := if cfg.HCloud.SSHKeyPrivatePath = "" then env.agentAuthErr
    else env.keyAuthErr
  match authErr with
  | some e => ([], .fatal ("error building ssh authentication: " ++ e))
  | none => ([], .ok ())

/-- main.go lines 333 to 358: the connection retry loop.  The loop guard
is retries <= initialRetries; remaining = initialRetries - retries + 1 is
the number of guard successes left, so remaining = 0 is loop exit, where
the !connectionSuccess check turns into the fatal message.  A net.Error
increments retries after a fixed 10 second sleep; any other error is
log.Fatalf, ending the run. -/
def connectLoop (out : Nat → AttemptOutcome) :
    Nat → Nat → List Event × StepResult Unit
  | 0, _ => ([], .fatal "ssh connection was not successful")
  | remaining + 1, retries =>
    match out retries with
    | .success => ([Event.sshAttempt retries], .ok ())
    | .netError _ =>
      let (t, r) := connectLoop out remaining (retries + 1)
      (Event.sshAttempt retries :: Event.sleepSeconds 10 :: t, r)
    | .otherError e =>
      ([Event.sshAttempt retries],
        .fatal ("unretriable error while etablishing ssh connection: " ++ e))

/-- The loop instantiated as in main: initialRetries = 30, retries = 1. -/
def sshConnectPhase (out : Nat → AttemptOutcome) : List Event × StepResult Unit :=
  connectLoop out 30 1

def installScriptSource : String :=
  "https://raw.githubusercontent.com/flatcar-linux/init/flatcar-master/bin/flatcar-install"

def installScriptTarget : String := "/root/flatcar-install"

def ignitionTarget : String := "/root/ignition.json"

/-- main.go lines 366 to 385: place the install script (upload or remote
curl download) and upload the ignition file. -/
def uploadPhase (env : Env) (cfg : config) (renderedPath : String) :
    List Event × StepResult Unit :=
  andThen
    (if cfg.Flatcar.InstallScript = "" then
      match env.curlNewErr with
      | some e => ([], .fatal ("error creating cmd for install script download: " ++ e))
      | none =>
        match env.curlRunErr with
        | some e =>
          ([Event.runCmd ("curl -sS -o " ++ installScriptTarget ++ " " ++ installScriptSource)],
            .fatal ("error downloading install script: " ++ e))
        | none =>
          ([Event.runCmd ("curl -sS -o " ++ installScriptTarget ++ " " ++ installScriptSource)],
            .ok ())
    else
      match env.uploadScriptErr with
      | some e =>
        ([Event.uploadFile cfg.Flatcar.InstallScript installScriptTarget],
          .fatal ("error uploading flatcar-install script: " ++ e))
      | none =>
        ([Event.uploadFile cfg.Flatcar.InstallScript installScriptTarget], .ok ()))
    fun _ =>
      match env.uploadIgnitionErr with
      | some e =>
        ([Event.uploadFile renderedPath ignitionTarget],
          .fatal ("error uploading ignition file: " ++ e))
      | none => ([Event.uploadFile renderedPath ignitionTarget], .ok ())

/-- main.go lines 387 to 394: the flatcar-install invocation. -/
def buildInstallCommand (cfg : config) : String :=
  let installDeviceArg := if cfg.Flatcar.InstallDevice = "" then "-s"
    else "-d " ++ cfg.Flatcar.InstallDevice
  installScriptTarget ++ " -i " ++ ignitionTarget ++ " -V " ++ cfg.Flatcar.Version
    ++ " " ++ installDeviceArg ++ " " ++ cfg.Flatcar.InstallArgs

/-- main.go lines 397 to 402: the installation command sequence. -/
def installCommands (cfg : config) : List String :=
  ["apt update", "apt install -y gawk", "chmod +x " ++ installScriptTarget,
    buildInstallCommand cfg]

/-- main.go lines 403 to 424: run each command in order; failure to build
the command, to open the stdout pipe or a failing run are each fatal.  The
background stdout drain goroutine only copies output. -/
def runCommandLoop (newErr pipeOutErr runErr : String → Option String) :
    List String → List Event × StepResult Unit
  | [] => ([], .ok ())
  | c :: rest =>
    match newErr c with
    | some e => ([], .fatal ("error creating goph.Cmd for " ++ c ++ ": " ++ e))
    | none =>
      match pipeOutErr c with
      | some e => ([], .fatal ("error creating stdoutpipe for " ++ c ++ ": " ++ e))
      | none =>
        match runErr c with
        | some e =>
          ([Event.runCmd c], .fatal ("error running command " ++ c ++ ": " ++ e))
        | none =>
          let (t, r) := runCommandLoop newErr pipeOutErr runErr rest
          (Event.runCmd c :: t, r)

/-- main.go lines 426 to 434: the terminating reboot command.  Failure to
build it is fatal; an error from running it is only logged. -/
def rebootPhase (env : Env) : List Event × StepResult Unit :=
  match env.rebootNewErr with
  | some e => ([], .fatal ("error creating goph.Cmd for reboot command: " ++ e))
  | none =>
    match env.rebootRunErr with
    | some _ => ([Event.runCmd "reboot now"], .ok ())
    | none => ([Event.runCmd "reboot now"], .ok ())

/-- main.go lines 436 to 438 plus the normal-return deferred calls, LIFO:
the summary print, then sshClient.Close (deferred line 361), then the
os.Remove of the rendered config (deferred line 272), whose own failure
is a log.Fatalf inside the deferred function. -/
def finalPhase (env : Env) (server : Server) (renderedPath : String) :
    List Event × StepResult Unit :=
  ([Event.printSummary server.name server.id server.ipv4 server.ipv6,
    Event.closeSession, Event.removeTempFile renderedPath],
    match env.removeErr with
    | some e => .fatal ("error removing tempfile: " ++ e)
    | none => .ok ())

/-- The whole of main.  The usage check precedes everything; afterwards
the phases run in source order and any fatal step ends the process at
once (os.Exit), skipping the deferred cleanup. -/
def mainRun (env : Env) : List Event × ExitStatus :=
  if env.args.length = 1 then ([Event.printUsage], ExitStatus.usageExit)
  else
    toExit
      (andThen (parseConfigPhase env) fun cfg =>
      andThen (lookupSSHKeyPhase env cfg) fun sshKey =>
      andThen (lookupNetworkPhase env cfg) fun net =>
      andThen (resolveServerPhase env sshKey net (env.args.getD 1 "")) fun server =>
      andThen (renderPhase env cfg) fun _ =>
      andThen (transpilePhase env) fun renderedPath =>
      andThen (rescuePhase env sshKey server) fun _ =>
      andThen (sshAuthPhase env cfg) fun _ =>
      andThen (sshConnectPhase env.connectOutcome) fun _ =>
      andThen (uploadPhase env cfg renderedPath) fun _ =>
      andThen (runCommandLoop env.cmdNewErr env.pipeErr env.cmdRunErr (installCommands cfg))
        fun _ =>
      andThen (rebootPhase env) fun _ =>
      finalPhase env server renderedPath)

/-! ## Concrete runs used by the counterexamples, code evaluations and
witnesses. -/

def baseConf : config :=
  { HCloud :=
    { Token := "tok", SSHKey := "mykey", SSHKeyPrivatePath := "",
      PrivateNetwork := "prod-net", ServerType := "cx11", Location := "nbg1",
      Image := "debian-11" },
    Flatcar :=
    { InstallScript := "flatcar-install", Version := "3139.2.0",
      ConfigTemplate := "ignition.yml.gtpl", TemplateStatic := [],
      TemplateCommand := "", InstallDevice := "", InstallArgs := "" } }

def baseServer : Server :=
  { id := 42, name := "web-1", status := ServerStatus.running,
    rescueEnabled := false, privateNet := [5], ipv4 := "1.2.3.4",
    ipv6 := "2001:db8::1" }

def cleanTranspile : TranspileEnv :=
  { parseReport := { fatalFlag := false, text := "" },
    convertReport := { fatalFlag := false, text := "" },
    jsonMarshal := Except.ok "{}",
    createTempResult := Except.ok "/tmp/ignition1",
    writeErr := none }

/-- A fully successful reinstall run of the existing, already attached
server web-1. -/
def baseEnv : Env :=
  { args := ["hetzner-flatcar", "web-1"],
    tomlDecode := Except.ok baseConf,
    sshKeyLookup := (none, some { id := 7, name := "mykey" }),
    networkLookup := (none, some { id := 5, name := "prod-net" }),
    serverLookup := (none, some baseServer),
    attachErr := none, attachActionErr := none,
    serverTypeLookup := (none, some 11),
    imageLookup := (none, some 3),
    locationLookup := (none, some 2),
    createErr := none, createActionErr := none,
    createWait := ([100], none), nextActionWaits := [],
    createdServerId := 42, getByIdErr := none, getByIdServer := baseServer,
    tmplLoadErr := none, tmplExecErr := none,
    yamlMarshalErr := none, tmplCmdErr := none,
    transpile := cleanTranspile,
    enableRescueErr := none, enableRescueActionErr := none,
    enableRescueWait := ([100], none),
    powerErr := none, powerActionErr := none, powerWait := ([100], none),
    keyAuthErr := none, agentAuthErr := none,
    connectOutcome := fun _ => AttemptOutcome.success,
    uploadScriptErr := none, curlNewErr := none, curlRunErr := none,
    uploadIgnitionErr := none,
    cmdNewErr := fun _ => none, pipeErr := fun _ => none,
    cmdRunErr := fun _ => none,
    rebootNewErr := none, rebootRunErr := none, removeErr := none }

/-- The same run up to the create branch: the server does not exist yet. -/
def createEnv : Env :=
  { baseEnv with serverLookup := (none, none) }

/-! ## Claim C4: the Action Waiter. -/

theorem mem_of_getLast_hundred {l : List Nat} (h : l.getLast? = some 100) : 100 ∈ l := by
  obtain ⟨hne, heq⟩ := List.mem_getLast?_eq_getLast (show 100 ∈ l.getLast? by simp [h])
  rw [heq]
  exact List.getLast_mem hne

/-- C4: waitForAction returns success (nil error) for any progress
sequence ending in 100, and for any sequence that closes before reaching
100 it returns the paired error read from the error channel. -/
theorem c4_theorem :
    (∀ (progress : List Nat) (pairedError : Option String),
      progress.getLast? = some 100 → waitForAction progress pairedError = none)
    ∧ (∀ (progress : List Nat) (pairedError : Option String),
      ¬ 100 ∈ progress → waitForAction progress pairedError = pairedError) := by
  constructor
  · intro progress pairedError h
    have hm := mem_of_getLast_hundred h
    simp [waitForAction, watchLoop_eq, hm]
  · intro progress pairedError h
    simp [waitForAction, watchLoop_eq, h]

/-- Witness for C4 at the concrete feeds [0, 37, 100] and [0, 37]. -/
theorem c4_witness :
    waitForAction [0, 37, 100] (some "boom") = none
    ∧ waitForAction [0, 37] (some "boom") = some "boom" :=
  ⟨c4_theorem.1 [0, 37, 100] (some "boom") (by decide),
    c4_theorem.2 [0, 37] (some "boom") (by decide)⟩

/-! ## Claim C10: verifyConfig. -/

/-- C10: verifyConfig returns an error exactly when one of token, ssh
key, private network, server type, location or flatcar version is empty;
an empty image silently defaults to debian-11 and an empty config
template path silently defaults to ignition.yml.gtpl. -/
theorem c10_theorem : ∀ conf : config,
    ((verifyConfig conf).1 = none ↔
      (conf.HCloud.Token ≠ "" ∧ conf.HCloud.SSHKey ≠ "" ∧ conf.HCloud.PrivateNetwork ≠ ""
        ∧ conf.HCloud.ServerType ≠ "" ∧ conf.HCloud.Location ≠ ""
        ∧ conf.Flatcar.Version ≠ ""))
    ∧ ((verifyConfig conf).1 = none →
      ((verifyConfig conf).2.HCloud.Image =
          (if conf.HCloud.Image = "" then "debian-11" else conf.HCloud.Image)
        ∧ (verifyConfig conf).2.Flatcar.ConfigTemplate =
          (if conf.Flatcar.ConfigTemplate = "" then "ignition.yml.gtpl"
            else conf.Flatcar.ConfigTemplate))) := by
  intro conf
  obtain ⟨⟨t, sk, skp, pn, st, loc, img⟩, ⟨is, v, ct, ts, tc, idv, ia⟩⟩ := conf
  unfold verifyConfig verifyFlatcarPart
  dsimp only
  split_ifs <;> simp_all

/-- A config with every required field set and image and template left
empty. -/
def emptiesConf : config :=
  { HCloud :=
    { Token := "t", SSHKey := "k", SSHKeyPrivatePath := "", PrivateNetwork := "n",
      ServerType := "cx11", Location := "nbg1", Image := "" },
    Flatcar :=
    { InstallScript := "", Version := "3139.2.0", ConfigTemplate := "",
      TemplateStatic := [], TemplateCommand := "", InstallDevice := "",
      InstallArgs := "" } }

/-- The same config with the location dropped. -/
def noLocationConf : config :=
  { emptiesConf with HCloud := { emptiesConf.HCloud with Location := "" } }

/-- Witness for C10: emptiesConf passes and receives both defaults;
noLocationConf fails. -/
theorem c10_witness :
    (verifyConfig emptiesConf).1 = none
    ∧ (verifyConfig emptiesConf).2.HCloud.Image = "debian-11"
    ∧ (verifyConfig emptiesConf).2.Flatcar.ConfigTemplate = "ignition.yml.gtpl"
    ∧ (verifyConfig noLocationConf).1 ≠ none := by
  refine ⟨(c10_theorem emptiesConf).1.mpr (by decide), ?_, ?_, ?_⟩
  · have h := ((c10_theorem emptiesConf).2 ((c10_theorem emptiesConf).1.mpr (by decide))).1
    simpa [emptiesConf] using h
  · have h := ((c10_theorem emptiesConf).2 ((c10_theorem emptiesConf).1.mpr (by decide))).2
    simpa [emptiesConf] using h
  · intro h
    have := (c10_theorem noLocationConf).1.mp h
    simp [noLocationConf, emptiesConf] at this

/-! ## Claim C7: the transpileConfig error kinds. -/

def parseFailEnv : TranspileEnv :=
  { parseReport := { fatalFlag := true, text := "error at line 3: unknown key passwdx" },
    convertReport := { fatalFlag := false, text := "" },
    jsonMarshal := Except.ok "{}",
    createTempResult := Except.ok "/tmp/ignition1",
    writeErr := none }

def convertFailEnv : TranspileEnv :=
  { parseReport := { fatalFlag := false, text := "" },
    convertReport := { fatalFlag := true, text := "error at line 9: no filesystem specified" },
    jsonMarshal := Except.ok "{}",
    createTempResult := Except.ok "/tmp/ignition1",
    writeErr := none }

/-- Counterexample to C7 as stated: on a fatal parse report carrying a
diagnostic, transpileConfig returns the fixed message and the diagnostic
text does not occur in it; the report is discarded, not surfaced. -/
theorem c7_counterexample :
    transpileConfig parseFailEnv = Except.error "config parsing failed"
    ∧ errorSurfacesReport "config parsing failed" parseFailEnv.parseReport = false :=
  ⟨rfl, by decide⟩

/-- C7 amended: the two failure points return distinct fixed fatal
errors (config parsing failed and config conversion failed), independent
of the diagnostic report, which is not surfaced. -/
theorem c7_theorem : ∀ t : TranspileEnv,
    (t.parseReport.fatalFlag = true →
      transpileConfig t = Except.error "config parsing failed")
    ∧ (t.parseReport.fatalFlag = false → t.convertReport.fatalFlag = true →
      transpileConfig t = Except.error "config conversion failed")
    ∧ ("config parsing failed" ≠ "config conversion failed") := by
  intro t
  refine ⟨?_, ?_, by decide⟩
  · intro h
    simp [transpileConfig, transpileConfigRun, h]
  · intro h1 h2
    simp [transpileConfig, transpileConfigRun, h1, h2]

/-- Witness for C7 amended at the two concrete fatal reports. -/
theorem c7_witness :
    transpileConfig parseFailEnv = Except.error "config parsing failed"
    ∧ transpileConfig convertFailEnv = Except.error "config conversion failed" :=
  ⟨(c7_theorem parseFailEnv).1 (by decide),
    (c7_theorem convertFailEnv).2.1 (by decide) (by decide)⟩

/-! ## Claim C1: the network reconcile branch of the Machine Resolver. -/

def prodNet : Network := { id := 5, name := "prod-net" }

/-- baseServer with no networks attached. -/
def detachedServer : Server := { baseServer with privateNet := [] }

/-- Counterexample to C1 as stated: a run on an existing server missing
the desired network issues the attach request but never invokes the
Action Waiter on its action — the reconcile branch performs no wait. -/
theorem c1_counterexample :
    Event.reqAttach 42 5 ∈ (existingServerPhase baseEnv prodNet detachedServer).1
    ∧ Event.waitAction ∉ (existingServerPhase baseEnv prodNet detachedServer).1 := by
  decide

/-- C1 amended: on the existing-server branch, a machine missing the
desired network gets exactly one mutating request, the attach request,
whose request error and immediate action error are checked, but no
Action Waiter invocation; an already attached machine gets no request at
all. -/
theorem c1_theorem : ∀ (env : Env) (net : Network) (server : Server),
    (privateNetworkAttachedLoop server.privateNet net.id = true →
      (existingServerPhase env net server).1 = [])
    ∧ (privateNetworkAttachedLoop server.privateNet net.id = false →
      ((existingServerPhase env net server).1 = [Event.reqAttach server.id net.id]
        ∧ Event.waitAction ∉ (existingServerPhase env net server).1
        ∧ (existingServerPhase env net server).1.countP Event.isMutating = 1)) := by
  intro env net server
  constructor
  · intro h
    simp [existingServerPhase, h]
  · intro h
    have htr : (existingServerPhase env net server).1 = [Event.reqAttach server.id net.id] := by
      rcases hA : env.attachErr with _ | e <;> rcases hB : env.attachActionErr with _ | e2 <;>
        simp [existingServerPhase, h, hA, hB]
    refine ⟨htr, ?_, ?_⟩
    · rw [htr]; simp
    · rw [htr]; simp [List.countP_cons, Event.isMutating]

/-- Witness for C1 amended: the attached server gets an empty trace, the
detached one exactly the attach request. -/
theorem c1_witness :
    (existingServerPhase baseEnv prodNet baseServer).1 = []
    ∧ (existingServerPhase baseEnv prodNet detachedServer).1 = [Event.reqAttach 42 5] :=
  ⟨(c1_theorem baseEnv prodNet baseServer).1 (by decide),
    ((c1_theorem baseEnv prodNet detachedServer).2 (by decide)).1⟩

/-! ## Claim C2: lifetime of the transient configuration file. -/

/-- baseEnv but the EnableRescue request fails, after the transient file
was created. -/
def rescueFailEnv : Env := { baseEnv with enableRescueErr := some "rescue api error" }

/-- C2 evaluated on the code: when a step after transpilation fails, the
run exits through log.Fatalf (os.Exit), the deferred os.Remove never
runs and the created transient file is not deleted; it is deleted only
on the normal-return path. -/
theorem c2_theorem :
    ((mainRun rescueFailEnv).2
        = ExitStatus.fatalErr "error sending enablerescue request: rescue api error"
      ∧ Event.createTempFile "/tmp/ignition1" ∈ (mainRun rescueFailEnv).1
      ∧ Event.removeTempFile "/tmp/ignition1" ∉ (mainRun rescueFailEnv).1)
    ∧ (Event.createTempFile "/tmp/ignition1" ∈ (mainRun baseEnv).1
      ∧ Event.removeTempFile "/tmp/ignition1" ∈ (mainRun baseEnv).1
      ∧ (mainRun baseEnv).2 = ExitStatus.ok) := by
  decide

/-! ## Claim C3: create-path resolution of server type, image, location. -/

/-- The create run where the configured location name does not exist:
Location.GetByName returns a nil location and a nil error. -/
def noLocationEnv : Env := { createEnv with locationLookup := (none, none) }

/-- The create run where the configured server type name does not exist. -/
def noServerTypeEnv : Env := { createEnv with serverTypeLookup := (none, none) }

/-- C3 evaluated on the code: a lookup that yields no resource is not
detected (only the request error is checked), so the create request is
still issued, with the missing resource as nil; with the location
missing the run even completes successfully. -/
theorem c3_theorem :
    (Event.reqCreate "web-1" (some 11) (some 3) none [7] [5] ∈ (mainRun noLocationEnv).1
      ∧ (mainRun noLocationEnv).2 = ExitStatus.ok)
    ∧ Event.reqCreate "web-1" none (some 3) (some 2) [7] [5] ∈ (mainRun noServerTypeEnv).1 := by
  decide

/-! ## Claim C5: the ssh connection retry loop. -/

/-- The trace of n consecutive retryable failures starting at attempt r:
each attempt is followed by the fixed 10 second sleep. -/
def retryTraceFrom (r : Nat) : Nat → List Event
  | 0 => []
  | n + 1 => Event.sshAttempt r :: Event.sleepSeconds 10 :: retryTraceFrom (r + 1) n

theorem count_sleep_retryTraceFrom :
    ∀ (n r : Nat), (retryTraceFrom r n).count (Event.sleepSeconds 10) = n := by
  intro n
  induction n with
  | zero => intro r; simp [retryTraceFrom]
  | succ n ih => intro r; simp [retryTraceFrom, List.count_cons, ih]

theorem connectLoop_success :
    ∀ (N : Nat) (r remaining : Nat) (out : Nat → AttemptOutcome),
    N < remaining →
    (∀ j, j < N → (out (r + j)).isNet = true) →
    out (r + N) = AttemptOutcome.success →
    connectLoop out remaining r
      = (retryTraceFrom r N ++ [Event.sshAttempt (r + N)], StepResult.ok ()) := by
  intro N
  induction N with
  | zero =>
    intro r remaining out hlt hpre hsucc
    cases remaining with
    | zero => omega
    | succ m =>
      have h0 : out r = AttemptOutcome.success := by simpa using hsucc
      simp [connectLoop, h0, retryTraceFrom]
  | succ N ih =>
    intro r remaining out hlt hpre hsucc
    cases remaining with
    | zero => omega
    | succ m =>
      have h0 : (out r).isNet = true := by simpa using hpre 0 (by omega)
      rcases hOut : out r with _ | msg | msg
      · rw [hOut] at h0; simp [AttemptOutcome.isNet] at h0
      · have harith : r + (N + 1) = (r + 1) + N := by omega
        have ihm := ih (r + 1) m out (by omega)
          (fun j hj => by
            have := hpre (j + 1) (by omega)
            simpa [show r + (j + 1) = (r + 1) + j by omega] using this)
          (by rw [harith] at hsucc; exact hsucc)
        simp [connectLoop, hOut, ihm, retryTraceFrom, harith]
      · rw [hOut] at h0; simp [AttemptOutcome.isNet] at h0

theorem connectLoop_unretriable :
    ∀ (N : Nat) (r remaining : Nat) (out : Nat → AttemptOutcome) (e : String),
    N < remaining →
    (∀ j, j < N → (out (r + j)).isNet = true) →
    out (r + N) = AttemptOutcome.otherError e →
    connectLoop out remaining r
      = (retryTraceFrom r N ++ [Event.sshAttempt (r + N)],
        StepResult.fatal ("unretriable error while etablishing ssh connection: " ++ e)) := by
  intro N
  induction N with
  | zero =>
    intro r remaining out e hlt hpre hfail
    cases remaining with
    | zero => omega
    | succ m =>
      have h0 : out r = AttemptOutcome.otherError e := by simpa using hfail
      simp [connectLoop, h0, retryTraceFrom]
  | succ N ih =>
    intro r remaining out e hlt hpre hfail
    cases remaining with
    | zero => omega
    | succ m =>
      have h0 : (out r).isNet = true := by simpa using hpre 0 (by omega)
      rcases hOut : out r with _ | msg | msg
      · rw [hOut] at h0; simp [AttemptOutcome.isNet] at h0
      · have harith : r + (N + 1) = (r + 1) + N := by omega
        have ihm := ih (r + 1) m out e (by omega)
          (fun j hj => by
            have := hpre (j + 1) (by omega)
            simpa [show r + (j + 1) = (r + 1) + j by omega] using this)
          (by rw [harith] at hfail; exact hfail)
        simp [connectLoop, hOut, ihm, retryTraceFrom, harith]
      · rw [hOut] at h0; simp [AttemptOutcome.isNet] at h0

theorem connectLoop_exhaust :
    ∀ (remaining r : Nat) (out : Nat → AttemptOutcome),
    (∀ j, j < remaining → (out (r + j)).isNet = true) →
    connectLoop out remaining r
      = (retryTraceFrom r remaining, StepResult.fatal "ssh connection was not successful") := by
  intro remaining
  induction remaining with
  | zero => intro r out h; simp [connectLoop, retryTraceFrom]
  | succ m ih =>
    intro r out h
    have h0 : (out r).isNet = true := by simpa using h 0 (by omega)
    rcases hOut : out r with _ | msg | msg
    · rw [hOut] at h0; simp [AttemptOutcome.isNet] at h0
    · have ihm := ih (r + 1) out (fun j hj => by
        have := h (j + 1) (by omega)
        simpa [show r + (j + 1) = (r + 1) + j by omega] using this)
      simp [connectLoop, hOut, ihm, retryTraceFrom]
    · rw [hOut] at h0; simp [AttemptOutcome.isNet] at h0

/-- C5: in the connection loop with its fixed budget of 30 attempts and
fixed 10 second delay, N retryable failures followed by a success give
exactly N sleeps of 10 seconds and success on attempt N+1; a
non-retryable error on any attempt ends the run at that attempt with no
further sleep; 30 retryable failures exhaust the budget and end the run
fatally after 30 sleeps. -/
theorem c5_theorem :
    (∀ (out : Nat → AttemptOutcome) (N : Nat),
      N ≤ 29 →
      (∀ j, j < N → (out (1 + j)).isNet = true) →
      out (1 + N) = AttemptOutcome.success →
      (sshConnectPhase out
          = (retryTraceFrom 1 N ++ [Event.sshAttempt (1 + N)], StepResult.ok ())
        ∧ (sshConnectPhase out).1.count (Event.sleepSeconds 10) = N))
    ∧ (∀ (out : Nat → AttemptOutcome) (N : Nat) (e : String),
      N ≤ 29 →
      (∀ j, j < N → (out (1 + j)).isNet = true) →
      out (1 + N) = AttemptOutcome.otherError e →
      (sshConnectPhase out
          = (retryTraceFrom 1 N ++ [Event.sshAttempt (1 + N)],
            StepResult.fatal ("unretriable error while etablishing ssh connection: " ++ e))
        ∧ (sshConnectPhase out).1.count (Event.sleepSeconds 10) = N))
    ∧ (∀ (out : Nat → AttemptOutcome),
      (∀ j, j < 30 → (out (1 + j)).isNet = true) →
      (sshConnectPhase out
          = (retryTraceFrom 1 30, StepResult.fatal "ssh connection was not successful")
        ∧ (sshConnectPhase out).1.count (Event.sleepSeconds 10) = 30)) := by
  refine ⟨?_, ?_, ?_⟩
  · intro out N hN hpre hsucc
    have h := connectLoop_success N 1 30 out (by omega) hpre hsucc
    refine ⟨h, ?_⟩
    rw [show sshConnectPhase out = connectLoop out 30 1 from rfl, h]
    simp [List.count_append, count_sleep_retryTraceFrom]
  · intro out N e hN hpre hfail
    have h := connectLoop_unretriable N 1 30 out e (by omega) hpre hfail
    refine ⟨h, ?_⟩
    rw [show sshConnectPhase out = connectLoop out 30 1 from rfl, h]
    simp [List.count_append, count_sleep_retryTraceFrom]
  · intro out hpre
    have h := connectLoop_exhaust 30 1 out hpre
    refine ⟨h, ?_⟩
    rw [show sshConnectPhase out = connectLoop out 30 1 from rfl, h]
    simp [count_sleep_retryTraceFrom]

/-- Two retryable failures then success. -/
def outRetryTwice : Nat → AttemptOutcome :=
  fun k => if k ≤ 2 then AttemptOutcome.netError "connection refused" else AttemptOutcome.success

/-- An authentication failure on the first attempt. -/
def outAuthFail : Nat → AttemptOutcome :=
  fun _ => AttemptOutcome.otherError "handshake failed: no supported methods remain"

/-- Every attempt fails retryably. -/
def outAlwaysDown : Nat → AttemptOutcome :=
  fun _ => AttemptOutcome.netError "i/o timeout"

/-- Witness for C5 at three concrete outcome schedules. -/
theorem c5_witness :
    (sshConnectPhase outRetryTwice
        = (retryTraceFrom 1 2 ++ [Event.sshAttempt 3], StepResult.ok ())
      ∧ (sshConnectPhase outRetryTwice).1.count (Event.sleepSeconds 10) = 2)
    ∧ sshConnectPhase outAuthFail
        = ([Event.sshAttempt 1],
          StepResult.fatal
            "unretriable error while etablishing ssh connection: handshake failed: no supported methods remain")
    ∧ (sshConnectPhase outAlwaysDown).1.count (Event.sleepSeconds 10) = 30 := by
  refine ⟨?_, ?_, ?_⟩
  · exact c5_theorem.1 outRetryTwice 2 (by omega) (by decide) (by decide)
  · have h := (c5_theorem.2.1 outAuthFail 0
      "handshake failed: no supported methods remain" (by omega) (by omega) (by decide)).1
    simpa [retryTraceFrom] using h
  · exact (c5_theorem.2.2 outAlwaysDown (by decide)).2

/-! ## Claim C6: the installation command sequence and the terminating
reboot. -/

theorem runCommandLoop_all_ok :
    ∀ (cs : List String) (newErr pipeOutErr runErr : String → Option String),
    (∀ d ∈ cs, newErr d = none ∧ pipeOutErr d = none ∧ runErr d = none) →
    runCommandLoop newErr pipeOutErr runErr cs = (cs.map Event.runCmd, StepResult.ok ()) := by
  intro cs
  induction cs with
  | nil => intro newErr pipeOutErr runErr h; simp [runCommandLoop]
  | cons c rest ih =>
    intro newErr pipeOutErr runErr h
    obtain ⟨h1, h2, h3⟩ := h c (by simp)
    have ihr := ih newErr pipeOutErr runErr (fun d hd => h d (by simp [hd]))
    simp [runCommandLoop, h1, h2, h3, ihr]

theorem runCommandLoop_fail :
    ∀ (pre : List String) (c : String) (post : List String)
      (newErr pipeOutErr runErr : String → Option String) (e : String),
    (∀ d ∈ pre, newErr d = none ∧ pipeOutErr d = none ∧ runErr d = none) →
    newErr c = none → pipeOutErr c = none → runErr c = some e →
    runCommandLoop newErr pipeOutErr runErr (pre ++ c :: post)
      = ((pre ++ [c]).map Event.runCmd,
        StepResult.fatal ("error running command " ++ c ++ ": " ++ e)) := by
  intro pre
  induction pre with
  | nil =>
    intro c post newErr pipeOutErr runErr e hpre h1 h2 h3
    simp [runCommandLoop, h1, h2, h3]
  | cons d rest ih =>
    intro c post newErr pipeOutErr runErr e hpre h1 h2 h3
    obtain ⟨hd1, hd2, hd3⟩ := hpre d (by simp)
    have ihr := ih c post newErr pipeOutErr runErr e
      (fun x hx => hpre x (by simp [hx])) h1 h2 h3
    simp [runCommandLoop, hd1, hd2, hd3, ihr]

/-- baseEnv but the terminating reboot command errors (the expected
outcome of a successful reboot severing the session). -/
def rebootFailEnv : Env := { baseEnv with rebootRunErr := some "remote closed" }

/-- C6: the installation commands run strictly in their listed order; a
failing command is fatal and nothing after it in the sequence runs; with
all installation commands succeeding the terminating reboot command
runs and its error is non-fatal, the run still reporting success. -/
theorem c6_theorem :
    (∀ (newErr pipeOutErr runErr : String → Option String)
      (pre : List String) (c : String) (post : List String) (e : String),
      (∀ d ∈ pre, newErr d = none ∧ pipeOutErr d = none ∧ runErr d = none) →
      newErr c = none → pipeOutErr c = none → runErr c = some e →
      runCommandLoop newErr pipeOutErr runErr (pre ++ c :: post)
        = ((pre ++ [c]).map Event.runCmd,
          StepResult.fatal ("error running command " ++ c ++ ": " ++ e)))
    ∧ (∀ (env : Env) (cfg : config),
      (∀ d ∈ installCommands cfg,
        env.cmdNewErr d = none ∧ env.pipeErr d = none ∧ env.cmdRunErr d = none) →
      env.rebootNewErr = none →
      (andThen (runCommandLoop env.cmdNewErr env.pipeErr env.cmdRunErr (installCommands cfg))
          fun _ => rebootPhase env)
        = ((installCommands cfg).map Event.runCmd ++ [Event.runCmd "reboot now"],
          StepResult.ok ()))
    ∧ ((mainRun rebootFailEnv).2 = ExitStatus.ok
      ∧ Event.printSummary "web-1" 42 "1.2.3.4" "2001:db8::1" ∈ (mainRun rebootFailEnv).1) := by
  refine ⟨?_, ?_, by decide⟩
  · intro newErr pipeOutErr runErr pre c post e hpre h1 h2 h3
    exact runCommandLoop_fail pre c post newErr pipeOutErr runErr e hpre h1 h2 h3
  · intro env cfg hok hnew
    have hloop := runCommandLoop_all_ok (installCommands cfg)
      env.cmdNewErr env.pipeErr env.cmdRunErr hok
    rcases hrb : env.rebootRunErr with _ | e <;>
      simp [andThen, hloop, rebootPhase, hnew, hrb]

/-- The install sequence where the second command, apt install -y gawk,
exits non-zero. -/
def gawkFails : String → Option String :=
  fun c => if c = "apt install -y gawk" then some "exit status 100" else none

def okFn : String → Option String := fun _ => none

/-- Witness for C6: with the gawk install failing, exactly the first two
commands run and the loop is fatal; on rebootFailEnv style success the
full sequence plus the reboot command appears. -/
theorem c6_witness :
    runCommandLoop okFn okFn gawkFails (installCommands baseConf)
      = ([Event.runCmd "apt update", Event.runCmd "apt install -y gawk"],
        StepResult.fatal "error running command apt install -y gawk: exit status 100")
    ∧ (andThen (runCommandLoop rebootFailEnv.cmdNewErr rebootFailEnv.pipeErr
          rebootFailEnv.cmdRunErr (installCommands baseConf))
        fun _ => rebootPhase rebootFailEnv)
      = ((installCommands baseConf).map Event.runCmd ++ [Event.runCmd "reboot now"],
        StepResult.ok ()) := by
  constructor
  · have h := c6_theorem.1 okFn okFn gawkFails
      ["apt update"] "apt install -y gawk"
      ["chmod +x /root/flatcar-install", buildInstallCommand baseConf] "exit status 100"
      (by decide) (by decide) (by decide) (by decide)
    have hcmds : installCommands baseConf
        = ["apt update"] ++ "apt install -y gawk"
          :: ["chmod +x /root/flatcar-install", buildInstallCommand baseConf] := by
      decide
    rw [hcmds]
    simpa using h
  · exact c6_theorem.2.1 rebootFailEnv baseConf (by decide) (by decide)

/-! ## Claim C8: the rescue sequencer. -/

/-- C8: the enable-rescue request, scoped to the one configured ssh key,
is issued exactly when rescue mode is not already enabled; under
successful requests and waits the phase is the optional
enable-and-wait, then a reboot when running and a power-on otherwise,
its wait, and the fixed 30 second settle sleep; in the full successful
run the settle sleep precedes the first connection attempt. -/
theorem c8_theorem :
    (∀ (env : Env) (key : SSHKey) (server : Server),
      (Event.reqEnableRescue [key.id] ∈ (rescuePhase env key server).1
        ↔ server.rescueEnabled = false))
    ∧ (∀ (env : Env) (key : SSHKey) (server : Server),
      env.enableRescueErr = none → env.enableRescueActionErr = none →
      runWait env.enableRescueWait = none →
      env.powerErr = none → env.powerActionErr = none →
      runWait env.powerWait = none →
      rescuePhase env key server
        = ((if server.rescueEnabled then []
            else [Event.reqEnableRescue [key.id], Event.waitAction])
          ++ [(if server.status = ServerStatus.running then Event.reqReboot server.id
                else Event.reqPoweron server.id),
              Event.waitAction, Event.sleepSeconds 30], StepResult.ok ()))
    ∧ ((mainRun baseEnv).1.indexOf (Event.sleepSeconds 30)
        < (mainRun baseEnv).1.indexOf (Event.sshAttempt 1)
      ∧ Event.sleepSeconds 30 ∈ (mainRun baseEnv).1
      ∧ Event.sshAttempt 1 ∈ (mainRun baseEnv).1) := by
  refine ⟨?_, ?_, by decide⟩
  · intro env key server
    cases hre : server.rescueEnabled with
    | true =>
      simp only [rescuePhase, enableRescuePhase, hre, if_true]
      rcases hP : env.powerErr with _ | e <;>
        rcases hPA : env.powerActionErr with _ | e2 <;>
        rcases hW : runWait env.powerWait with _ | e3 <;>
        by_cases hst : server.status = ServerStatus.running <;>
        simp [powerPhase, andThen, hP, hPA, hW, hst]
    | false =>
      simp only [rescuePhase, enableRescuePhase, hre, if_false]
      rcases hE : env.enableRescueErr with _ | e <;>
        rcases hEA : env.enableRescueActionErr with _ | e2 <;>
        rcases hEW : runWait env.enableRescueWait with _ | e3 <;>
        simp [andThen, hE, hEA, hEW]
  · intro env key server h1 h2 h3 h4 h5 h6
    cases hre : server.rescueEnabled <;>
      by_cases hst : server.status = ServerStatus.running <;>
      simp [rescuePhase, enableRescuePhase, powerPhase, andThen,
        hre, hst, h1, h2, h3, h4, h5, h6]

/-- An already rescue-enabled, powered-off server. -/
def offRescueServer : Server :=
  { baseServer with status := ServerStatus.off, rescueEnabled := true }

/-- The ssh key record of the successful run. -/
def myKey : SSHKey := { id := 7, name := "mykey" }

/-- Witness for C8: on baseServer (rescue off, running) the phase is
enable, wait, reboot, wait, sleep; on offRescueServer (rescue on, off)
it is power-on, wait, sleep, with no enable-rescue request. -/
theorem c8_witness :
    rescuePhase baseEnv myKey baseServer
      = ([Event.reqEnableRescue [7], Event.waitAction, Event.reqReboot 42,
          Event.waitAction, Event.sleepSeconds 30], StepResult.ok ())
    ∧ rescuePhase baseEnv myKey offRescueServer
      = ([Event.reqPoweron 42, Event.waitAction, Event.sleepSeconds 30], StepResult.ok ())
    ∧ ¬ Event.reqEnableRescue [7] ∈ (rescuePhase baseEnv myKey offRescueServer).1 := by
  refine ⟨?_, ?_, ?_⟩
  · have h := c8_theorem.2.1 baseEnv myKey baseServer rfl rfl rfl rfl rfl rfl
    simpa [baseServer, myKey] using h
  · have h := c8_theorem.2.1 baseEnv myKey offRescueServer rfl rfl rfl rfl rfl rfl
    simpa [offRescueServer, baseServer, myKey] using h
  · intro hmem
    have := (c8_theorem.1 baseEnv myKey offRescueServer).mp (by simpa [myKey] using hmem)
    simp [offRescueServer, baseServer] at this

/-! ## Claim C9: the command line surface. -/

/-- A summary print carrying a machine name, identifier and both public
addresses occurs in the trace. -/
def summaryIn (t : List Event) : Prop :=
  ∃ name id v4 v6, Event.printSummary name id v4 v6 ∈ t

theorem summaryIn_append_right (t1 : List Event) {t2 : List Event} (h : summaryIn t2) :
    summaryIn (t1 ++ t2) := by
  obtain ⟨n, i, v4, v6, hm⟩ := h
  exact ⟨n, i, v4, v6, List.mem_append_right t1 hm⟩

theorem toExit_fst (x : List Event × StepResult Unit) : (toExit x).1 = x.1 := by
  rcases x with ⟨t, r⟩
  cases r <;> simp [toExit]

theorem toExit_ok {x : List Event × StepResult Unit}
    (h : (toExit x).2 = ExitStatus.ok) : x.2 = StepResult.ok () := by
  rcases x with ⟨t, r⟩
  cases r with
  | ok a => rfl
  | fatal m => simp [toExit] at h

theorem andThen_summary {α : Type} (x : List Event × StepResult α)
    (f : α → List Event × StepResult Unit)
    (h : (andThen x f).2 = StepResult.ok ())
    (hf : ∀ a, (f a).2 = StepResult.ok () → summaryIn (f a).1) :
    summaryIn (andThen x f).1 := by
  rcases x with ⟨t, r⟩
  cases r with
  | fatal m => simp [andThen] at h
  | ok a =>
    have h2 : (f a).2 = StepResult.ok () := by simpa [andThen] using h
    have hs := hf a h2
    simpa [andThen] using summaryIn_append_right t hs

/-- The invocation without the positional machine name argument. -/
def usageEnv : Env := { baseEnv with args := ["hetzner-flatcar"] }

/-- C9: without a positional argument the run prints only the usage line
and exits non-zero, before the config is read or any cloud call is made;
every run that exits successfully has printed a summary carrying a
machine name, its identifier and both public addresses, as the fully
successful concrete run does with its server record. -/
theorem c9_theorem :
    (∀ env : Env, env.args.length = 1 →
      (mainRun env = ([Event.printUsage], ExitStatus.usageExit)
        ∧ (mainRun env).2.code = 1))
    ∧ (∀ env : Env, (mainRun env).2 = ExitStatus.ok → summaryIn (mainRun env).1)
    ∧ (Event.printSummary "web-1" 42 "1.2.3.4" "2001:db8::1" ∈ (mainRun baseEnv).1
      ∧ (mainRun baseEnv).2 = ExitStatus.ok) := by
  refine ⟨?_, ?_, by decide⟩
  · intro env h
    constructor
    · simp [mainRun, h]
    · simp [mainRun, h, ExitStatus.code]
  · intro env h
    by_cases ha : env.args.length = 1
    · simp [mainRun, ha] at h
    · rw [mainRun, if_neg ha] at h ⊢
      rw [toExit_fst]
      have h0 := toExit_ok h
      refine andThen_summary _ _ h0 ?_
      intro cfg h1
      refine andThen_summary _ _ h1 ?_
      intro sshKey h2
      refine andThen_summary _ _ h2 ?_
      intro net h3
      refine andThen_summary _ _ h3 ?_
      intro server h4
      refine andThen_summary _ _ h4 ?_
      intro u5 h5
      refine andThen_summary _ _ h5 ?_
      intro renderedPath h6
      refine andThen_summary _ _ h6 ?_
      intro u7 h7
      refine andThen_summary _ _ h7 ?_
      intro u8 h8
      refine andThen_summary _ _ h8 ?_
      intro u9 h9
      refine andThen_summary _ _ h9 ?_
      intro u10 h10
      refine andThen_summary _ _ h10 ?_
      intro u11 h11
      refine andThen_summary _ _ h11 ?_
      intro u12 h12
      exact ⟨server.name, server.id, server.ipv4, server.ipv6, by simp [finalPhase]⟩

/-- Witness for C9: the missing-argument run and the successful run. -/
theorem c9_witness :
    mainRun usageEnv = ([Event.printUsage], ExitStatus.usageExit)
    ∧ summaryIn (mainRun baseEnv).1 :=
  ⟨(c9_theorem.1 usageEnv (by decide)).1, c9_theorem.2.1 baseEnv (by decide)⟩

end HetznerFlatcar
